import Mathlib

/-!
Verification of the symbol/price resolution core of the `web3-mcp` repository.

The development shallowly embeds the TypeScript sources:
* `src/tools/pyth/symbol-mappings.ts` — the static oracle feed table and the
  symbol partition functions;
* the Pyth price client (`getLatestPriceUpdates`, same file bundle) — the
  response shaping and fixed-point price decoding;
* `src/mcp/pyth-price-feeds/symbol-pricing.ts` — the
  `get_token_prices_by_symbols` handler;
* `src/mcp/base/cached_aptos_api_tool.ts` and the cached Nodit / Bitcoin API
  tools — the capability dispatchers and the symbol converter.

JavaScript numbers are modelled by `ℚ` (all arithmetic the sources perform on
the modelled paths is exact in `ℚ`); the `NaN`/`Infinity` behaviour of the one
unguarded division is modelled explicitly by `JsNum`.  ISO timestamp strings
are abstracted as the epoch-millisecond integers they are built from.
-/

/-! ### Static oracle feed table (`TOKEN_SYMBOL_TO_PYTH_FEED`) -/

/-- One value of the `TOKEN_SYMBOL_TO_PYTH_FEED` record: a Pyth feed id and a
human description. -/
structure FeedInfo where
  feedId : String
  description : String
deriving Repr, DecidableEq

/-- The static symbol → feed table from `symbol-mappings.ts`, in source order.
Keys are the (already upper-case) token symbols. -/
def TOKEN_SYMBOL_TO_PYTH_FEED : List (String × FeedInfo) := [
  ("BTC", ⟨"0xe62df6c8b4a85fe1a67db44dc12de5db330f7ac66b72dc658afedf0f4a415b43", "Bitcoin"⟩),
  ("ETH", ⟨"0xff61491a931112ddf1bd8147cd1b641375f79f5825126d665480874634fd0ace", "Ethereum"⟩),
  ("SOL", ⟨"0xef0d8b6fda2ceba41da15d4095d1da392a0d2f8ed0c6c7bc0f4cfac8c280b56d", "Solana"⟩),
  ("SUI", ⟨"0x23d7315113f5b1d3ba7a83604c44b94d79f4fd69af77f804fc7f920a6dc65744", "Sui"⟩),
  ("USDT", ⟨"0x2b89b9dc8fdf9f34709a5b106b472f0f39bb6ca9ce04b0fd7f2e971688e2e53b", "Tether USD"⟩),
  ("USDC", ⟨"0xeaa020c61cc479712813461ce153894a96a6c00b21ed0cfc2798d1f9a9e9c94a", "USD Coin"⟩),
  ("DAI", ⟨"0xb0948a5e5313200c632b51bb5ca32f6de0d36e9950a942d19751e833f70dabfd", "Dai Stablecoin"⟩),
  ("MATIC", ⟨"0x5de33a9112c2b700b8d30b8a3402c103578ccfa2765696471cc672bd5cf6ac52", "Polygon"⟩),
  ("AVAX", ⟨"0x93da3352f9f1d105fdfe4971cfa80e9dd777bfc5d0f683ebb6e1294b92137bb7", "Avalanche"⟩),
  ("BNB", ⟨"0x2f95862b045670cd22bee3114c39763a4a08beeb663b145d283c31d7d1101c4f", "BNB"⟩),
  ("ADA", ⟨"0x2a01deaec9e51a579277b34b122399984d0bbf57e2458a7e42fecd2829867a0d", "Cardano"⟩),
  ("UNI", ⟨"0x78d185a741d07edb3aeb9c639787bd0b1b03000b6eb924e9a0e39e0ba97e5ebe", "Uniswap"⟩),
  ("LINK", ⟨"0x8ac0c70fff57e9aefdf5edf44b51d62c2d433653cbb2cf5cc06bb115af04d221", "Chainlink"⟩),
  ("AAVE", ⟨"0x2b9ab1e972a281585084148ba1389800799bd4be63b957507db1349314e47445", "Aave"⟩),
  ("CRV", ⟨"0xa19d04ac696c7a6616d291c7e5d1377cc8be437c327b75adb5dc1bad745fcae8", "Curve DAO Token"⟩),
  ("DOGE", ⟨"0xdcef50dd0a4cd2dcc17e45df1676dcb336a11a61c69df7a0299b0150c672d25c", "Dogecoin"⟩),
  ("SHIB", ⟨"0xf0d57deca57b3da2fe63a493f4c25925fdfd8edf834b20f78a5404b4da80c8da", "Shiba Inu"⟩),
  ("APT", ⟨"0x03ae4db29ed4ae33d323568895aa00337e658e348b37509f5372ae51f0af00d5", "Aptos"⟩)]

/-- JavaScript `String.prototype.toUpperCase` on the ASCII symbols the sources
handle: upper-case every character. (Stated over the character list so that it
evaluates by kernel reduction.) -/
def jsToUpperCase (s : String) : String :=
  ⟨s.data.map Char.toUpper⟩

/-- `getPythFeedForSymbol`: look the upper-cased symbol up in the static
table (`TOKEN_SYMBOL_TO_PYTH_FEED[key] || null`). -/
def getPythFeedForSymbol (symbol : String) : Option FeedInfo :=
  TOKEN_SYMBOL_TO_PYTH_FEED.lookup (jsToUpperCase symbol)

/-- `hasPythFeed`: membership test of the upper-cased symbol in the table. -/
def hasPythFeed (symbol : String) : Bool :=
  (getPythFeedForSymbol symbol).isSome

/-- One element of the `pythFeeds` array built by `getPythFeedsForSymbols`. -/
structure PythFeedEntry where
  symbol : String
  feedId : String
  description : String
deriving Repr, DecidableEq

/-- The record returned by `getPythFeedsForSymbols`. -/
structure FeedPartition where
  pythFeeds : List PythFeedEntry
  noditSymbols : List String
deriving Repr, DecidableEq

/-- `getPythFeedsForSymbols`: iterate over the symbols in order; a symbol with
a feed is pushed (upper-cased, with the feed data) onto `pythFeeds`, any other
symbol is pushed verbatim onto `noditSymbols`. -/
def getPythFeedsForSymbols : List String → FeedPartition
  | [] => ⟨[], []⟩
  | s :: rest =>
    let r := getPythFeedsForSymbols rest
    match getPythFeedForSymbol s with
    | some f => ⟨⟨jsToUpperCase s, f.feedId, f.description⟩ :: r.pythFeeds, r.noditSymbols⟩
    | none => ⟨r.pythFeeds, s :: r.noditSymbols⟩

/-! ### Oracle price client (`getLatestPriceUpdates` response shaping) -/

/-- The `ema_price` field of one parsed Hermes update: a mantissa (the source
applies `Number(...)` to it), a signed exponent, and an epoch-second publish
time. -/
structure EmaPrice where
  price : ℚ
  expo : ℤ
  publish_time : ℤ
deriving Repr, DecidableEq

/-- One parsed update of the Hermes batch response. -/
structure ParsedUpdate where
  id : String
  ema_price : EmaPrice
deriving Repr, DecidableEq

/-- The inline fixed-point decoding of `getLatestPriceUpdates`:
`expo > 0` multiplies the mantissa by `10 ** Math.abs(expo)`, any other
exponent divides by `10 ** Math.abs(expo)`. -/
def decodeEmaPrice (price : ℚ) (expo : ℤ) : ℚ :=
  if expo > 0 then price * (10 : ℚ) ^ expo.natAbs
  else price / (10 : ℚ) ^ expo.natAbs

/-- One element of the `prices` array produced by `getLatestPriceUpdates`.
`price` is `none` where the source writes `null` (the `price || null`
coercion); `publishTime` abstracts the ISO string by the epoch-millisecond
value `publish_time * 1000` it is rendered from. -/
structure PythPriceUpdate where
  id : String
  price : Option ℚ
  publishTime : Option ℤ
deriving Repr, DecidableEq

/-- The per-update formatting step of `getLatestPriceUpdates`: decode the EMA
price, coerce a zero (JavaScript-falsy) result to `null`, and render the
publish time (the `ema_price` object is always present, so the publish time is
never `null` on this path). -/
def formatUpdate (u : ParsedUpdate) : PythPriceUpdate :=
  { id := u.id
    price := let p := decodeEmaPrice u.ema_price.price u.ema_price.expo
      if p = 0 then none else some p
    publishTime := some (u.ema_price.publish_time * 1000) }

/-- The value `getLatestPriceUpdates` resolves with. On the error path the
source returns no `prices` field at all, modelled as `none`. -/
structure GetPriceUpdatesResponse where
  success : Bool
  prices : Option (List PythPriceUpdate)
  error : Option String
deriving Repr, DecidableEq

/-- Outcome of the `HermesClient.getLatestPriceUpdates` call as seen by the
source's `try` block: either a response object whose `parsed` field may be
absent, or a thrown error. -/
inductive HermesOutcome where
  | ok (parsed : Option (List ParsedUpdate))
  | err (msg : String)
deriving Repr, DecidableEq

/-- `getLatestPriceUpdates`: map the formatter over `parsed` when the client
call returns (an absent `parsed` yields `[]`), and produce the
`{success:false, error}` object when it throws. The requested `priceIds` are
forwarded to the client but never consulted when shaping the response. -/
def getLatestPriceUpdates (priceIds : List String) : HermesOutcome → GetPriceUpdatesResponse
  | .ok parsed =>
    { success := true
      prices := some ((parsed.getD []).map formatUpdate)
      error := none }
  | .err msg =>
    { success := false
      prices := none
      error := some msg }

/-! ### JavaScript number model for the one unguarded division

`get_token_prices_by_symbols` renders
`Math.round(pythFeeds.length / symbols.length * 100)` into its coverage
string. The division is unguarded, so the IEEE-754 special values reachable
from it are modelled explicitly. -/

/-- A JavaScript number: a finite value, `NaN`, or a signed infinity. (The
sign of zero is not modelled; the sources never produce `-0` on the modelled
paths.) -/
inductive JsNum where
  | num (q : ℚ)
  | nan
  | inf (neg : Bool)
deriving Repr, DecidableEq

/-- JavaScript `/` on the modelled number domain. -/
def jsDiv : JsNum → JsNum → JsNum
  | .nan, _ => .nan
  | _, .nan => .nan
  | .num a, .num b =>
    if b = 0 then (if a = 0 then .nan else .inf (decide (a < 0))) else .num (a / b)
  | .num _, .inf _ => .num 0
  | .inf s, .num b => if b = 0 then .inf s else .inf (xor s (decide (b < 0)))
  | .inf _, .inf _ => .nan

/-- JavaScript `*` on the modelled number domain. -/
def jsMul : JsNum → JsNum → JsNum
  | .nan, _ => .nan
  | _, .nan => .nan
  | .num a, .num b => .num (a * b)
  | .inf s, .num b => if b = 0 then .nan else .inf (xor s (decide (b < 0)))
  | .num a, .inf s => if a = 0 then .nan else .inf (xor s (decide (a < 0)))
  | .inf s, .inf t => .inf (xor s t)

/-- JavaScript `Math.round` (`⌊x + 1/2⌋` on finite values; `NaN` and the
infinities pass through). -/
def jsRound : JsNum → JsNum
  | .num q => .num ((round q : ℤ) : ℚ)
  | x => x

/-! ### The `get_token_prices_by_symbols` handler
(`src/mcp/pyth-price-feeds/symbol-pricing.ts`) -/

/-- One element of the handler's `results` array. The two object shapes the
source pushes are told apart by their `source` discriminator
(`"pyth"` / `"manual_resolution_needed"`), modelled as constructors; the
static instruction text of the manual-resolution entry carries no data and is
elided. -/
inductive ResultEntry where
  | pyth (symbol description : String) (price : Option ℚ) (currency : String)
      (last_updated : Option ℤ) (feed_id : String)
  | manualResolution (symbols : List String)
deriving Repr, DecidableEq

/-- One element of the handler's `execution_plan` array, by the three object
shapes the source pushes (the static `action`/`recommendations` strings carry
no data and are elided; the fields that vary are kept). -/
inductive PlanStep where
  | pythFetch (step : ℕ) (priceIds : List String) (symbols_covered : List String)
  | pythFailed (step : ℕ) (error : String) (fallback_symbols : List String)
  | manualSearch (step : ℕ) (symbols : List String) (currency : String)
deriving Repr, DecidableEq

/-- The zip of the source's `pythResult.prices.forEach((price, index) => ...)`:
the quote at index `i` combines `prices[i]` with `pythFeeds[i]`, and an index
with no feed (`if (feed)`) pushes nothing — so the result stops at the shorter
list. The quote's `currency` is the hard-coded `"USD"`. -/
def zipQuotes : List PythPriceUpdate → List PythFeedEntry → List ResultEntry
  | p :: ps, f :: fs =>
    .pyth f.symbol f.description p.price "USD" p.publishTime f.feedId :: zipQuotes ps fs
  | _, _ => []

/-- Outcome of the `await getLatestPriceUpdates(...)` expression as seen by
the handler's `try` block: the resolved response object, or a thrown error.
(The client itself wraps its body in `try`/`catch` and always resolves, i.e.
only ever produces the `returns` case — see `getLatestPriceUpdates`.) -/
inductive OracleCallOutcome where
  | returns (resp : GetPriceUpdatesResponse)
  | throws (msg : String)
deriving Repr, DecidableEq

/-- The handler's mutable locals: `execution_plan`, `results`, and the
(possibly extended) `noditSymbols` array. -/
structure PricingLoopState where
  plan : List PlanStep
  results : List ResultEntry
  nodit : List String
deriving Repr, DecidableEq

/-- The record the `get_token_prices_by_symbols` handler returns.
`total_symbols`, `pyth_supported` and `manual_resolution_needed` are the
`overview` counts; `pyth_coverage_pct` is the `Math.round(...)` value
interpolated into the `pyth_coverage` string; `manual_steps_pending` records
which `next_steps` branch the source selects. The static message strings are
elided. -/
structure SymbolPricingResult where
  status : String
  total_symbols : ℕ
  pyth_supported : ℕ
  manual_resolution_needed : ℕ
  currency : String
  execution_plan : List PlanStep
  price_results : List ResultEntry
  pyth_coverage_pct : JsNum
  manual_steps_pending : Bool
deriving Repr, DecidableEq

/-- The `get_token_prices_by_symbols` handler. `oracle` is the batched price
call (given the feed ids, it either returns a response or throws); every other
step of the handler is pure. The returned record keeps the response fields the
source computes from its inputs; `pyth_coverage_pct` is the number
interpolated into the `pyth_coverage` string. -/
def getTokenPricesBySymbols (symbols : List String) (currency : String)
    (oracle : List String → OracleCallOutcome) : SymbolPricingResult :=
  let part := getPythFeedsForSymbols symbols
  let pythFeeds := part.pythFeeds
  let st : PricingLoopState :=
    if pythFeeds.length > 0 then
      let step1 := PlanStep.pythFetch 1 (pythFeeds.map (·.feedId))
        (pythFeeds.map fun f => f.symbol ++ " (" ++ f.description ++ ")")
      match oracle (pythFeeds.map (·.feedId)) with
      | .returns r =>
        match r.success, r.prices with
        | true, some ps => ⟨[step1], zipQuotes ps pythFeeds, part.noditSymbols⟩
        | _, _ => ⟨[step1], [], part.noditSymbols⟩
      | .throws e =>
        ⟨[step1, .pythFailed 2 e (pythFeeds.map (·.symbol))], [],
          part.noditSymbols ++ pythFeeds.map (·.symbol)⟩
    else ⟨[], [], part.noditSymbols⟩
  let plan :=
    if st.nodit.length > 0 then
      st.plan ++ [PlanStep.manualSearch (st.plan.length + 1) st.nodit currency]
    else st.plan
  let results :=
    if st.nodit.length > 0 then st.results ++ [ResultEntry.manualResolution st.nodit]
    else st.results
  { status := "success"
    total_symbols := symbols.length
    pyth_supported := pythFeeds.length
    manual_resolution_needed := st.nodit.length
    currency := currency
    execution_plan := plan
    price_results := results
    pyth_coverage_pct :=
      jsRound (jsMul (jsDiv (.num pythFeeds.length) (.num symbols.length)) (.num 100))
    manual_steps_pending := decide (0 < st.nodit.length) }

/-! ### Capability dispatchers: cached Nodit / Bitcoin API tools

The dispatchers look an operation id up in a static registry; an unknown id
yields the error object enumerating the registry's keys, a known id yields the
call descriptor with the `{protocol}`/`{network}` placeholders substituted in
the path template. The request/response JSON schemas in the registries are
static literals echoed verbatim into the output and consulted by no branch;
they are elided from the embedding. -/

/-- First-occurrence substring replacement on character lists (JavaScript's
`String.prototype.replace` with a string pattern). -/
def replaceFirstAux (pat sub : List Char) : List Char → List Char
  | [] => []
  | c :: rest =>
    if pat.isPrefixOf (c :: rest) then sub ++ (c :: rest).drop pat.length
    else c :: replaceFirstAux pat sub rest

/-- JavaScript `s.replace(pat, sub)` for a string pattern: replace the first
occurrence only. -/
def jsReplaceFirst (s pat sub : String) : String :=
  ⟨replaceFirstAux pat.data sub.data s.data⟩

/-- `spec.path.replace('{protocol}', protocol).replace('{network}', network)`. -/
def resolvePath (path protocol network : String) : String :=
  jsReplaceFirst (jsReplaceFirst path "{protocol}" protocol) "{network}" network

/-- The registry fields of one cached operation that the dispatcher reads or
echoes: id, path template, HTTP method, description. -/
structure ApiOperationSpec where
  operationId : String
  path : String
  method : String
  description : String
deriving Repr, DecidableEq

/-- `CACHED_NODIT_API_SPECS`, in source order. -/
def CACHED_NODIT_API_SPECS : List (String × ApiOperationSpec) := [
  ("searchTokenContractMetadataByKeyword",
    ⟨"searchTokenContractMetadataByKeyword",
      "/{protocol}/{network}/token/searchTokenContractMetadataByKeyword", "POST",
      "Search token contracts by keyword (name or symbol)"⟩),
  ("getTokenPricesByContracts",
    ⟨"getTokenPricesByContracts",
      "/{protocol}/{network}/token/getTokenPricesByContracts", "POST",
      "Get token prices for contract addresses"⟩),
  ("getTokenTransfersByAccount",
    ⟨"getTokenTransfersByAccount",
      "/{protocol}/{network}/token/getTokenTransfersByAccount", "POST",
      "Get token transfers for account address"⟩),
  ("getTokensOwnedByAccount",
    ⟨"getTokensOwnedByAccount",
      "/{protocol}/{network}/token/getTokensOwnedByAccount", "POST",
      "Get tokens owned by account"⟩),
  ("getNativeBalanceByAccount",
    ⟨"getNativeBalanceByAccount",
      "/{protocol}/{network}/native/getNativeBalanceByAccount", "POST",
      "Get native token balance for account"⟩),
  ("getGasPrice",
    ⟨"getGasPrice", "/{protocol}/{network}/block/getGasPrice", "POST",
      "Get current gas price"⟩),
  ("getBlocksWithinRange",
    ⟨"getBlocksWithinRange",
      "/{protocol}/{network}/blockchain/getBlocksWithinRange", "POST",
      "Get blocks within a specific range"⟩)]

/-- `CACHED_BITCOIN_API_SPECS`, in source order. -/
def CACHED_BITCOIN_API_SPECS : List (String × ApiOperationSpec) := [
  ("getNativeTokenBalanceByAccount",
    ⟨"getNativeTokenBalanceByAccount",
      "/{protocol}/{network}/native/getNativeTokenBalanceByAccount", "POST",
      "Get Bitcoin balance for specific address"⟩),
  ("getNativeTokenTransfersByAccount",
    ⟨"getNativeTokenTransfersByAccount",
      "/{protocol}/{network}/native/getNativeTokenTransfersByAccount", "POST",
      "Get Bitcoin transaction history for address"⟩),
  ("getUnspentTransactionOutputsByAccount",
    ⟨"getUnspentTransactionOutputsByAccount",
      "/{protocol}/{network}/blockchain/getUnspentTransactionOutputsByAccount", "POST",
      "Get UTXO list for Bitcoin address"⟩),
  ("getTransactionByTransactionId",
    ⟨"getTransactionByTransactionId",
      "/{protocol}/{network}/blockchain/getTransactionByTransactionId", "POST",
      "Get Bitcoin transaction details by transaction ID"⟩),
  ("getTransactionsByAccount",
    ⟨"getTransactionsByAccount",
      "/{protocol}/{network}/blockchain/getTransactionsByAccount", "POST",
      "Get Bitcoin transactions for account"⟩),
  ("getTotalTransactionCountByAccount",
    ⟨"getTotalTransactionCountByAccount",
      "/{protocol}/{network}/blockchain/getTotalTransactionCountByAccount", "POST",
      "Get total transaction count for Bitcoin address"⟩),
  ("getBlockByHashOrNumber",
    ⟨"getBlockByHashOrNumber",
      "/{protocol}/{network}/blockchain/getBlockByHashOrNumber", "POST",
      "Get Bitcoin block information"⟩)]

/-- The `call_instruction` block of a successful dispatch: the verbatim call
descriptor handed to the transport collaborator. `requestBody` is passed
through at an arbitrary type, mirroring the untyped `z.record(z.any())`. -/
structure CallInstruction (β : Type) where
  tool : String
  protocol : String
  network : String
  operationId : String
  requestBody : β
deriving Repr, DecidableEq

/-- The `api_spec` echo of a successful dispatch (path already resolved). -/
structure ApiSpecEcho where
  operationId : String
  path : String
  method : String
  description : String
deriving Repr, DecidableEq

/-- The `validation` block of the Nodit dispatcher. -/
structure NoditValidation where
  valid_request : Bool
  protocol_supported : Bool
  operation_cached : Bool
deriving Repr, DecidableEq

/-- Result of the `cached_nodit_api` handler: the `status:"error"` object with
its `available_operations` enumeration, or the `status:"success"` dispatch
descriptor. -/
inductive NoditApiResult (β : Type) where
  | error (message : String) (available_operations : List String)
  | success (operation protocol network : String) (api_spec : ApiSpecEcho)
      (call_instruction : CallInstruction β) (request_body : β)
      (validation : NoditValidation)
deriving Repr, DecidableEq

/-- The protocols of the Nodit family (`z.enum` set, re-checked by
`validation.protocol_supported`). -/
def NODIT_SUPPORTED_PROTOCOLS : List String :=
  ["ethereum", "polygon", "arbitrum", "base", "optimism"]

/-- The `cached_nodit_api` handler. The `agent` argument is received and never
read, exactly as in the source; the handler reads nothing else but its
arguments and the static registry. -/
def cachedNoditApi {α β : Type} (agent : α) (operation_id protocol network : String)
    (request_body : β) : NoditApiResult β :=
  match CACHED_NODIT_API_SPECS.lookup operation_id with
  | none =>
    .error ("Unknown operation: " ++ operation_id) (CACHED_NODIT_API_SPECS.map Prod.fst)
  | some spec =>
    .success operation_id protocol network
      ⟨spec.operationId, resolvePath spec.path protocol network, spec.method,
        spec.description⟩
      ⟨"call_nodit_api", protocol, network, operation_id, request_body⟩
      request_body
      ⟨true, NODIT_SUPPORTED_PROTOCOLS.contains protocol, true⟩

/-- The `validation` block of the Bitcoin dispatcher (its extra
`bitcoin_address_format` member is a constant string; the static
`cost_efficiency` block of the success object carries no input data and is
elided). -/
structure BitcoinValidation where
  valid_request : Bool
  protocol_supported : Bool
  operation_cached : Bool
  bitcoin_address_format : String
deriving Repr, DecidableEq

/-- Result of the `cached_bitcoin_api` handler. -/
inductive BitcoinApiResult (β : Type) where
  | error (message : String) (available_operations : List String)
  | success (operation protocol network : String) (api_spec : ApiSpecEcho)
      (call_instruction : CallInstruction β) (request_body : β)
      (validation : BitcoinValidation)
deriving Repr, DecidableEq

/-- The protocols of the Bitcoin family. -/
def BITCOIN_SUPPORTED_PROTOCOLS : List String := ["bitcoin", "dogecoin"]

/-- The `cached_bitcoin_api` handler. -/
def cachedBitcoinApi {α β : Type} (agent : α) (operation_id protocol network : String)
    (request_body : β) : BitcoinApiResult β :=
  match CACHED_BITCOIN_API_SPECS.lookup operation_id with
  | none =>
    .error ("Unknown Bitcoin operation: " ++ operation_id)
      (CACHED_BITCOIN_API_SPECS.map Prod.fst)
  | some spec =>
    .success operation_id protocol network
      ⟨spec.operationId, resolvePath spec.path protocol network, spec.method,
        spec.description⟩
      ⟨"call_nodit_api", protocol, network, operation_id, request_body⟩
      request_body
      ⟨true, BITCOIN_SUPPORTED_PROTOCOLS.contains protocol, true,
        "Supports Legacy, P2SH, Bech32, Bech32m formats"⟩

/-! ### Cached Aptos GraphQL dispatcher (`cached_aptos_api_tool.ts`) -/

/-- Tag naming one of the six GraphQL document literals of
`CACHED_APTOS_QUERIES`. The documents are static strings echoed verbatim into
the output and consulted by no branch of the handler; each is represented by
its distinct tag. -/
inductive AptosQuerySource where
  | coinActivitiesQ
  | currentCoinBalancesQ
  | coinInfosQ
  | liquidityActivitiesQ
  | protocolActivitiesQ
  | tokenActivitiesQ
deriving Repr, DecidableEq

/-- Metadata of one GraphQL variable in a cached Aptos query (`type`, and the
`required` flag or integer `default` where the source declares one). -/
structure VarMeta where
  type : String
  required : Option Bool
  defaultVal : Option ℤ
deriving Repr, DecidableEq

/-- One entry of `CACHED_APTOS_QUERIES`. -/
structure AptosQuerySpec where
  queryName : String
  description : String
  query : AptosQuerySource
  varDefs : List (String × VarMeta)
deriving Repr, DecidableEq

/-- `CACHED_APTOS_QUERIES`, in source order. -/
def CACHED_APTOS_QUERIES : List (String × AptosQuerySpec) := [
  ("coin_activities",
    ⟨"coin_activities", "Get coin activities for addresses or contracts",
      .coinActivitiesQ,
      [("address", ⟨"String", some false, none⟩),
       ("coin_type", ⟨"String", some false, none⟩),
       ("limit", ⟨"Int", none, some 100⟩),
       ("activity_types", ⟨"[String!]", some false, none⟩),
       ("start_time", ⟨"timestamp", some false, none⟩)]⟩),
  ("current_coin_balances",
    ⟨"current_coin_balances", "Get current coin balances for addresses",
      .currentCoinBalancesQ,
      [("address", ⟨"String", some true, none⟩),
       ("coin_types", ⟨"[String!]", some false, none⟩)]⟩),
  ("coin_infos",
    ⟨"coin_infos", "Get coin metadata and information", .coinInfosQ,
      [("coin_types", ⟨"[String!]", some false, none⟩),
       ("creator_address", ⟨"String", some false, none⟩)]⟩),
  ("liquidity_activities",
    ⟨"liquidity_activities", "Get liquidity pool activities (deposits/withdrawals)",
      .liquidityActivitiesQ,
      [("pool_address", ⟨"String", some false, none⟩),
       ("coin_types", ⟨"[String!]", some false, none⟩),
       ("limit", ⟨"Int", none, some 100⟩),
       ("start_time", ⟨"timestamp", some false, none⟩)]⟩),
  ("protocol_activities",
    ⟨"protocol_activities", "Get DeFi protocol specific activities",
      .protocolActivitiesQ,
      [("protocol_address", ⟨"String", some true, none⟩),
       ("user_address", ⟨"String", some false, none⟩),
       ("function_filter", ⟨"[String!]", some false, none⟩),
       ("start_time", ⟨"timestamp", some false, none⟩),
       ("limit", ⟨"Int", none, some 1000⟩)]⟩),
  ("token_activities",
    ⟨"token_activities", "Get token (NFT) activities on Aptos", .tokenActivitiesQ,
      [("address", ⟨"String", some false, none⟩),
       ("token_data_id", ⟨"String", some false, none⟩),
       ("limit", ⟨"Int", none, some 100⟩),
       ("start_time", ⟨"timestamp", some false, none⟩)]⟩)]

/-- The `call_instruction` block of a successful Aptos dispatch: tool name,
network, and the request body `{query, variables}`. -/
structure AptosCallInstruction (γ : Type) where
  tool : String
  network : String
  query : AptosQuerySource
  varDefs : γ
deriving Repr, DecidableEq

/-- The `graphql_spec` echo of a successful Aptos dispatch. -/
structure AptosGraphqlSpecEcho where
  queryName : String
  description : String
  query : AptosQuerySource
  varDefs : List (String × VarMeta)
deriving Repr, DecidableEq

/-- The `validation` block of the Aptos dispatcher. -/
structure AptosValidation where
  valid_query : Bool
  network_supported : Bool
  query_cached : Bool
deriving Repr, DecidableEq

/-- Result of the `cached_aptos_api` handler. -/
inductive AptosApiResult (γ : Type) where
  | error (message : String) (available_queries : List String)
  | success (query_name network : String) (graphql_spec : AptosGraphqlSpecEcho)
      (call_instruction : AptosCallInstruction γ) (query_varDefs : γ)
      (validation : AptosValidation)
deriving Repr, DecidableEq

/-- The `cached_aptos_api` handler. Like the other dispatchers it receives the
`agent` argument without reading it, and reads only its arguments and the
static registry. -/
def cachedAptosApi {α γ : Type} (agent : α) (query_name network : String)
    (varDefs : γ) : AptosApiResult γ :=
  match CACHED_APTOS_QUERIES.lookup query_name with
  | none =>
    .error ("Unknown Aptos query: " ++ query_name) (CACHED_APTOS_QUERIES.map Prod.fst)
  | some q =>
    .success query_name network
      ⟨q.queryName, q.description, q.query, q.varDefs⟩
      ⟨"call_nodit_aptos_indexer_api", network, q.query, varDefs⟩
      varDefs
      ⟨true, ["mainnet", "testnet"].contains network, true⟩

/-! ### Symbol converter (`SymbolConverterTool`, `cached_aptos_api_tool.ts`) -/

/-- One entry of the `MAJOR_TOKENS` static table: contract address, decimals,
display name. -/
structure MajorToken where
  address : String
  decimals : ℕ
  name : String
deriving Repr, DecidableEq

/-- The `MAJOR_TOKENS` static table, chain → symbol → token, in source
order. -/
def MAJOR_TOKENS : List (String × List (String × MajorToken)) := [
  ("ethereum", [
    ("USDC", ⟨"0xA0b86a33E6417f84bDD9F42DD3a24b1A7FB5Ce15", 6, "USD Coin"⟩),
    ("USDT", ⟨"0xdAC17F958D2ee523a2206206994597C13D831ec7", 6, "Tether USD"⟩),
    ("WETH", ⟨"0xC02aaA39b223FE8D0A0e5C4F27eAD9083C756Cc2", 18, "Wrapped Ether"⟩),
    ("WBTC", ⟨"0x2260FAC5E5542a773Aa44fBCfeDf7C193bc2C599", 8, "Wrapped BTC"⟩),
    ("DAI", ⟨"0x6B175474E89094C44Da98b954EedeAC495271d0F", 18, "Dai Stablecoin"⟩),
    ("UNI", ⟨"0x1f9840a85d5aF5bf1D1762F925BDADdC4201F984", 18, "Uniswap"⟩),
    ("LINK", ⟨"0x514910771AF9Ca656af840dff83E8264EcF986CA", 18, "ChainLink Token"⟩)]),
  ("polygon", [
    ("USDC", ⟨"0x2791Bca1f2de4661ED88A30C99A7a9449Aa84174", 6, "USD Coin"⟩),
    ("USDT", ⟨"0xc2132D05D31c914a87C6611C10748AEb04B58e8F", 6, "Tether USD"⟩),
    ("WETH", ⟨"0x7ceB23fD6bC0adD59E62ac25578270cFf1b9f619", 18, "Wrapped Ether"⟩),
    ("WBTC", ⟨"0x1BFD67037B42Cf73acF2047067bd4F2C47D9BfD6", 8, "Wrapped BTC"⟩),
    ("DAI", ⟨"0x8f3Cf7ad23Cd3CaDbD9735AFf958023239c6A063", 18, "Dai Stablecoin"⟩),
    ("UNI", ⟨"0xb33EaAd8d922B1083446DC23f610c2567fB5180f", 18, "Uniswap"⟩),
    ("LINK", ⟨"0x53E0bca35eC356BD5ddDFebbD1Fc0fD03FaBad39", 18, "ChainLink Token"⟩)]),
  ("arbitrum", [
    ("USDC", ⟨"0xaf88d065e77c8cC2239327C5EDb3A432268e5831", 6, "USD Coin"⟩),
    ("USDT", ⟨"0xFd086bC7CD5C481DCC9C85ebE478A1C0b69FCbb9", 6, "Tether USD"⟩),
    ("WETH", ⟨"0x82aF49447D8a07e3bd95BD0d56f35241523fBab1", 18, "Wrapped Ether"⟩),
    ("WBTC", ⟨"0x2f2a2543B76A4166549F7aaB2e75Bef0aefC5B0f", 8, "Wrapped BTC"⟩),
    ("DAI", ⟨"0xDA10009cBd5D07dd0CeCc66161FC93D7c9000da1", 18, "Dai Stablecoin"⟩),
    ("UNI", ⟨"0xFa7F8980b0f1E64A2062791cc3b0871572f1F7f0", 18, "Uniswap"⟩),
    ("LINK", ⟨"0xf97f4df75117a78c1A5a0DBb814Af92458539FB4", 18, "ChainLink Token"⟩)]),
  ("base", [
    ("USDC", ⟨"0x833589fCD6eDb6E08f4c7C32D4f71b54bdA02913", 6, "USD Coin"⟩),
    ("WETH", ⟨"0x4200000000000000000000000000000000000006", 18, "Wrapped Ether"⟩),
    ("DAI", ⟨"0x50c5725949A6F0c72E6C4a641F24049A917DB0Cb", 18, "Dai Stablecoin"⟩)]),
  ("optimism", [
    ("USDC", ⟨"0x7F5c764cBc14f9669B88837ca1490cCa17c31607", 6, "USD Coin"⟩),
    ("USDT", ⟨"0x94b008aA00579c1307B0EF2c499aD98a8ce58e58", 6, "Tether USD"⟩),
    ("WETH", ⟨"0x4200000000000000000000000000000000000006", 18, "Wrapped Ether"⟩),
    ("WBTC", ⟨"0x68f180fcCe6836688e9084f035309E29Bf0A2095", 8, "Wrapped BTC"⟩),
    ("DAI", ⟨"0xDA10009cBd5D07dd0CeCc66161FC93D7c9000da1", 18, "Dai Stablecoin"⟩),
    ("UNI", ⟨"0x6fd9d7AD17242c41f7131d257212c54A0e816691", 18, "Uniswap"⟩),
    ("LINK", ⟨"0x350a791Bfc2C21F9Ed5d10980Dad2e2638ffa7f6", 18, "ChainLink Token"⟩)])]

/-- The `next_step` block of the converter's `status:"instruction"` fallback:
the keyword-search call descriptor (tool, operation id, path parameters, and
the `{keyword, page, rpp}` request body). -/
structure ConverterNextStep where
  tool : String
  operation_id : String
  protocol : String
  network : String
  keyword : String
  page : ℕ
  rpp : ℕ
deriving Repr, DecidableEq

/-- Result of the `symbol_converter` handler. `resolved` is the
`status:"success"` object served from the static table; `instruction` is the
`status:"instruction"` object whose only input-dependent data are the symbol,
the chain and the embedded `next_step` call descriptor (the static
`process_result` scoring text and `fallback` suggestion text are elided). -/
inductive SymbolConverterResult where
  | resolved (symbol chain contract_address name : String) (decimals : ℕ)
      (verified : Bool) (source confidence : String)
  | instruction (symbol chain : String) (next_step : ConverterNextStep)
deriving Repr, DecidableEq

/-- The fallthrough return of the converter: the keyword-search instruction
for the upper-cased symbol. -/
def symbolConverterFallback (upperSymbol chain : String) : SymbolConverterResult :=
  .instruction upperSymbol chain
    ⟨"cached_nodit_api", "searchTokenContractMetadataByKeyword", chain, "mainnet",
      upperSymbol, 1, 20⟩

/-- The `symbol_converter` handler: upper-case the symbol; when
`verified_only` holds and `MAJOR_TOKENS[chain]?.[upperSymbol]` exists, serve
the static entry; otherwise fall through to the keyword-search instruction. -/
def symbolConverter {α : Type} (agent : α) (symbol chain : String)
    (verified_only : Bool) : SymbolConverterResult :=
  let upperSymbol := jsToUpperCase symbol
  if verified_only then
    match (MAJOR_TOKENS.lookup chain).bind (fun t => t.lookup upperSymbol) with
    | some token =>
      .resolved upperSymbol chain token.address token.name token.decimals true
        "cached_major_tokens" "high"
    | none => symbolConverterFallback upperSymbol chain
  else symbolConverterFallback upperSymbol chain

/-! ### Claims -/

/-- C1: for every oracle price update with mantissa `m` and exponent `e`, the
decoding step of `getLatestPriceUpdates` computes `m * 10 ^ e`, honoring both
exponent signs; in particular mantissa `1234500` with exponent `-2` yields
`12345` and mantissa `5` with exponent `3` yields `5000`. -/
theorem price_decoding_honors_exponent_sign :
    (∀ (m : ℚ) (e : ℤ), decodeEmaPrice m e = m * (10 : ℚ) ^ e) ∧
    decodeEmaPrice 1234500 (-2) = 12345 ∧ decodeEmaPrice 5 3 = 5000 := by
  refine ⟨fun m e => ?_, by norm_num [decodeEmaPrice], by norm_num [decodeEmaPrice]⟩
  unfold decodeEmaPrice
  rcases lt_or_ge 0 e with h | h
  · rw [if_pos h, ← zpow_natCast (10 : ℚ) e.natAbs, Int.natAbs_of_nonneg h.le]
  · have he : -(e.natAbs : ℤ) = e := by omega
    rw [if_neg (by omega), div_eq_mul_inv, ← zpow_natCast (10 : ℚ) e.natAbs,
      ← zpow_neg, he]

/-- C4: for every symbol list, the partition computed by
`getPythFeedsForSymbols` satisfies
`pythFeeds.length + noditSymbols.length = symbols.length`, and bucket
membership is case-insensitive: symbols with the same upper-casing get the
same table lookup result, hence land in the same bucket. -/
theorem partition_exact_and_case_insensitive (symbols : List String) :
    (getPythFeedsForSymbols symbols).pythFeeds.length
        + (getPythFeedsForSymbols symbols).noditSymbols.length = symbols.length ∧
    ∀ s t : String, jsToUpperCase s = jsToUpperCase t →
      getPythFeedForSymbol s = getPythFeedForSymbol t := by
  constructor
  · induction symbols with
    | nil => rfl
    | cons s rest ih =>
      unfold getPythFeedsForSymbols
      cases h : getPythFeedForSymbol s <;> simp [h] <;> omega
  · intro s t h
    unfold getPythFeedForSymbol
    rw [h]

/-- Witness for C4 at a concrete input: a three-symbol list splits `2 + 1`,
and `"btc"` and `"BTC"` resolve identically. -/
theorem partition_exact_and_case_insensitive_witness :
    (getPythFeedsForSymbols ["btc", "ETH", "xyz"]).pythFeeds.length
        + (getPythFeedsForSymbols ["btc", "ETH", "xyz"]).noditSymbols.length = 3 ∧
    getPythFeedForSymbol "btc" = getPythFeedForSymbol "BTC" :=
  ⟨(partition_exact_and_case_insensitive ["btc", "ETH", "xyz"]).1,
   (partition_exact_and_case_insensitive ["btc", "ETH", "xyz"]).2 "btc" "BTC"
     (by decide)⟩

/-- Counterexample to C3 as stated: a batch of 3 requested feed ids whose
oracle response carries parsed updates only for the 1st and 3rd yields a
2-element `prices` list (the missing feed is dropped), not the claimed
3-element list with `price:null` at index 1. -/
theorem missing_feed_dropped_counterexample :
    (getLatestPriceUpdates ["id-a", "id-b", "id-c"]
        (.ok (some [⟨"id-a", ⟨100, -1, 7⟩⟩, ⟨"id-c", ⟨200, -1, 7⟩⟩]))).success = true ∧
    ((getLatestPriceUpdates ["id-a", "id-b", "id-c"]
        (.ok (some [⟨"id-a", ⟨100, -1, 7⟩⟩, ⟨"id-c", ⟨200, -1, 7⟩⟩]))).prices.getD
      []).map PythPriceUpdate.id = ["id-a", "id-c"] ∧
    ["id-a", "id-b", "id-c"].length = 3 := by
  refine ⟨rfl, ?_, rfl⟩
  simp [getLatestPriceUpdates, formatUpdate]

/-- C3 as amended: for every successful `getLatestPriceUpdates` call, the
returned `prices` list has exactly one entry per update in the oracle's parsed
response, in response order with ids preserved; requested feeds absent from
the parsed response are dropped rather than surfaced as `price:null`
placeholders, so the list length equals the parsed-response length, not the
request length. -/
theorem prices_follow_parsed_response (priceIds : List String)
    (parsed : List ParsedUpdate) :
    (getLatestPriceUpdates priceIds (.ok (some parsed))).success = true ∧
    ∃ l, (getLatestPriceUpdates priceIds (.ok (some parsed))).prices = some l ∧
      l.length = parsed.length ∧
      l.map PythPriceUpdate.id = parsed.map ParsedUpdate.id := by
  refine ⟨rfl, parsed.map formatUpdate, rfl, by simp, ?_⟩
  simp [List.map_map, Function.comp, formatUpdate]

/-- C9: in every `prices` array returned by a successful
`getLatestPriceUpdates`, each entry's price is either `null` or a nonzero
number; an update whose decoded value is exactly `0` is coerced (JavaScript
falsiness) to `price:null`. -/
theorem price_entries_null_or_nonzero :
    (∀ (priceIds : List String) (parsed : Option (List ParsedUpdate))
        (entry : PythPriceUpdate),
      entry ∈ (getLatestPriceUpdates priceIds (.ok parsed)).prices.getD [] →
      entry.price = none ∨ ∃ p, entry.price = some p ∧ p ≠ 0) ∧
    ∀ u : ParsedUpdate,
      decodeEmaPrice u.ema_price.price u.ema_price.expo = 0 →
      (formatUpdate u).price = none := by
  constructor
  · intro priceIds parsed entry hmem
    simp only [getLatestPriceUpdates, Option.getD_some, List.mem_map] at hmem
    obtain ⟨u, _, rfl⟩ := hmem
    by_cases h : decodeEmaPrice u.ema_price.price u.ema_price.expo = 0
    · exact Or.inl (by simp [formatUpdate, h])
    · exact Or.inr ⟨_, by simp [formatUpdate, h], h⟩
  · intro u h
    simp [formatUpdate, h]

/-- Witness for C9 at a concrete input: an update decoding to exactly `0` is
reported with a `null` price. -/
theorem price_entries_null_or_nonzero_witness :
    ((formatUpdate ⟨"z", ⟨0, 2, 7⟩⟩).price = none ∨
      ∃ p, (formatUpdate ⟨"z", ⟨0, 2, 7⟩⟩).price = some p ∧ p ≠ 0) ∧
    (formatUpdate ⟨"z", ⟨0, 2, 7⟩⟩).price = none :=
  ⟨price_entries_null_or_nonzero.1 ["f"] (some [⟨"z", ⟨0, 2, 7⟩⟩]) _
      (by simp [getLatestPriceUpdates]),
   price_entries_null_or_nonzero.2 ⟨"z", ⟨0, 2, 7⟩⟩ (by norm_num [decodeEmaPrice])⟩

/-- C6: in the price resolution engine's successful oracle branch, the quote
produced at position `i` carries the symbol, description and feed id of the
feed at position `i` of the request together with the `i`-th returned price —
attribution is a positional zip, correct exactly when the response order
matches the request feed-id order. -/
theorem quotes_zip_positionally (prices : List PythPriceUpdate)
    (feeds : List PythFeedEntry) (i : ℕ)
    (h1 : i < prices.length) (h2 : i < feeds.length) :
    ∃ h : i < (zipQuotes prices feeds).length,
      (zipQuotes prices feeds).get ⟨i, h⟩ =
        .pyth (feeds.get ⟨i, h2⟩).symbol (feeds.get ⟨i, h2⟩).description
          (prices.get ⟨i, h1⟩).price "USD" (prices.get ⟨i, h1⟩).publishTime
          (feeds.get ⟨i, h2⟩).feedId := by
  induction prices generalizing feeds i with
  | nil => exact absurd h1 (by simp)
  | cons p ps ih =>
    cases feeds with
    | nil => exact absurd h2 (by simp)
    | cons f fs =>
      cases i with
      | zero => exact ⟨by simp [zipQuotes], rfl⟩
      | succ n =>
        have h1n : n < ps.length := by simpa using h1
        have h2n : n < fs.length := by simpa using h2
        obtain ⟨h, hq⟩ := ih fs n h1n h2n
        refine ⟨by simpa [zipQuotes] using Nat.succ_lt_succ h, ?_⟩
        simpa [zipQuotes] using hq

/-- Witness for C6 at a concrete input: a one-price, one-feed zip attributes
the price to that feed's fields. -/
theorem quotes_zip_positionally_witness :
    ∃ h : 0 < (zipQuotes [⟨"id1", some 5, some 70⟩] [⟨"BTC", "f1", "Bitcoin"⟩]).length,
      (zipQuotes [⟨"id1", some 5, some 70⟩] [⟨"BTC", "f1", "Bitcoin"⟩]).get ⟨0, h⟩ =
        .pyth "BTC" "Bitcoin" (some 5) "USD" (some 70) "f1" := by
  simpa using quotes_zip_positionally [⟨"id1", some 5, some 70⟩]
    [⟨"BTC", "f1", "Bitcoin"⟩] 0 (by decide) (by decide)

/-- Evaluation of the C2 failing input: when the oracle batch call reports
failure the way the bundled client actually reports it — by resolving with
`{success:false, error}` rather than throwing (the client wraps its whole body
in `try`/`catch`) — the handler still answers `status:"success"`, but the
oracle-covered symbol `BTC` is NOT re-routed into the manual-resolution list
(`manual_resolution_needed = 0`, no `price_results` entry at all) and no error
step is surfaced in the `execution_plan`. The re-route-and-surface fallback of
the claim sits only in the handler's `catch` branch, which this failure mode
never reaches. -/
theorem oracle_failure_silently_drops_symbols :
    (getTokenPricesBySymbols ["BTC"] "USD"
        (fun _ => .returns ⟨false, none, some "Failed to get price updates"⟩)).status
      = "success" ∧
    (getTokenPricesBySymbols ["BTC"] "USD"
        (fun _ => .returns ⟨false, none, some "Failed to get price updates"⟩)).price_results
      = [] ∧
    (getTokenPricesBySymbols ["BTC"] "USD"
        (fun _ => .returns ⟨false, none, some "Failed to get price updates"⟩)).manual_resolution_needed
      = 0 ∧
    (getTokenPricesBySymbols ["BTC"] "USD"
        (fun _ => .returns ⟨false, none, some "Failed to get price updates"⟩)).execution_plan
      = [PlanStep.pythFetch 1
          ["0xe62df6c8b4a85fe1a67db44dc12de5db330f7ac66b72dc658afedf0f4a415b43"]
          ["BTC (Bitcoin)"]] := by
  exact ⟨rfl, rfl, rfl, rfl⟩

/-- C10: calling `get_token_prices_by_symbols` with an empty symbols array
still returns a `status:"success"` result with both partitions empty and all
counts zero, while the `pyth_coverage` percentage comes from the unguarded
division `0 / 0` and is `NaN` rather than a defined ratio. -/
theorem empty_symbols_success_with_nan_coverage (currency : String)
    (oracle : List String → OracleCallOutcome) :
    getTokenPricesBySymbols [] currency oracle =
      { status := "success"
        total_symbols := 0
        pyth_supported := 0
        manual_resolution_needed := 0
        currency := currency
        execution_plan := []
        price_results := []
        pyth_coverage_pct := JsNum.nan
        manual_steps_pending := false } := by
  rfl

/-- C5: dispatching an operation id absent from the family's registry, in
either the Nodit or the Bitcoin cached-API tool, yields the typed error
result whose `available_operations` enumeration is non-empty and contains
every operation id registered for that family. -/
theorem unknown_operation_enumerates_registry :
    (∀ (α β : Type) (agent : α) (op proto net : String) (body : β),
      CACHED_NODIT_API_SPECS.lookup op = none →
      cachedNoditApi agent op proto net body =
        .error ("Unknown operation: " ++ op) (CACHED_NODIT_API_SPECS.map Prod.fst) ∧
      CACHED_NODIT_API_SPECS.map Prod.fst ≠ [] ∧
      ∀ p ∈ CACHED_NODIT_API_SPECS, p.1 ∈ CACHED_NODIT_API_SPECS.map Prod.fst) ∧
    (∀ (α β : Type) (agent : α) (op proto net : String) (body : β),
      CACHED_BITCOIN_API_SPECS.lookup op = none →
      cachedBitcoinApi agent op proto net body =
        .error ("Unknown Bitcoin operation: " ++ op)
          (CACHED_BITCOIN_API_SPECS.map Prod.fst) ∧
      CACHED_BITCOIN_API_SPECS.map Prod.fst ≠ [] ∧
      ∀ p ∈ CACHED_BITCOIN_API_SPECS, p.1 ∈ CACHED_BITCOIN_API_SPECS.map Prod.fst) := by
  constructor
  · intro α β agent op proto net body h
    refine ⟨?_, by decide, fun p hp => List.mem_map_of_mem Prod.fst hp⟩
    simp [cachedNoditApi, h]
  · intro α β agent op proto net body h
    refine ⟨?_, by decide, fun p hp => List.mem_map_of_mem Prod.fst hp⟩
    simp [cachedBitcoinApi, h]

/-- Witness for C5 at a concrete input: the unregistered id `"foo"` produces
the enumeration error in both families. -/
theorem unknown_operation_enumerates_registry_witness :
    (cachedNoditApi () "foo" "ethereum" "mainnet" () =
        .error ("Unknown operation: " ++ "foo") (CACHED_NODIT_API_SPECS.map Prod.fst) ∧
      CACHED_NODIT_API_SPECS.map Prod.fst ≠ [] ∧
      ∀ p ∈ CACHED_NODIT_API_SPECS, p.1 ∈ CACHED_NODIT_API_SPECS.map Prod.fst) ∧
    (cachedBitcoinApi () "foo" "bitcoin" "mainnet" () =
        .error ("Unknown Bitcoin operation: " ++ "foo")
          (CACHED_BITCOIN_API_SPECS.map Prod.fst) ∧
      CACHED_BITCOIN_API_SPECS.map Prod.fst ≠ [] ∧
      ∀ p ∈ CACHED_BITCOIN_API_SPECS, p.1 ∈ CACHED_BITCOIN_API_SPECS.map Prod.fst) :=
  ⟨unknown_operation_enumerates_registry.1 Unit Unit () "foo" "ethereum" "mainnet" ()
     (by decide),
   unknown_operation_enumerates_registry.2 Unit Unit () "foo" "bitcoin" "mainnet" ()
     (by decide)⟩

/-- C7: the dispatcher handlers are deterministic and pure — two calls with
identical inputs (operation/query id, protocol, network, request body) yield
identical call-descriptor outputs, with no dependence on the agent argument or
any other ambient state (the embedding is a function of the inputs and the
static registries alone, exactly as the source handlers read nothing else). -/
theorem dispatch_pure_and_deterministic :
    ∀ (α α' β γ : Type) (a : α) (b : α') (operation_id protocol network : String)
      (body : β) (query_name qnetwork : String) (qvars : γ),
      cachedNoditApi a operation_id protocol network body =
        cachedNoditApi b operation_id protocol network body ∧
      cachedAptosApi a query_name qnetwork qvars =
        cachedAptosApi b query_name qnetwork qvars := by
  intro α α' β γ a b operation_id protocol network body query_name qnetwork qvars
  exact ⟨rfl, rfl⟩

/-- C8: a symbol present in the chain's static `MAJOR_TOKENS` table is served
by `symbol_converter` (with `verified_only = true`) directly from the table:
the `status:"success"` result with `confidence:"high"` and
`source:"cached_major_tokens"`, carrying the table entry's contract address,
decimals and display name for the (chain, upper-cased symbol) key. The
`resolved` constructor embeds no call descriptor — the only variant carrying
an external call plan is the `instruction` fallback — so no external call is
made. -/
theorem static_table_symbol_resolves_instantly (α : Type) (agent : α)
    (symbol chain : String) (token : MajorToken)
    (h : (MAJOR_TOKENS.lookup chain).bind
      (fun t => t.lookup (jsToUpperCase symbol)) = some token) :
    symbolConverter agent symbol chain true =
      .resolved (jsToUpperCase symbol) chain token.address token.name token.decimals
        true "cached_major_tokens" "high" := by
  simp [symbolConverter, h]

/-- Witness for C8 at a concrete input: `"usdc"` on ethereum is served from
the static table. -/
theorem static_table_symbol_resolves_instantly_witness :
    symbolConverter () "usdc" "ethereum" true =
      .resolved (jsToUpperCase "usdc") "ethereum"
        "0xA0b86a33E6417f84bDD9F42DD3a24b1A7FB5Ce15" "USD Coin" 6 true
        "cached_major_tokens" "high" :=
  static_table_symbol_resolves_instantly Unit () "usdc" "ethereum"
    ⟨"0xA0b86a33E6417f84bDD9F42DD3a24b1A7FB5Ce15", 6, "USD Coin"⟩ (by decide)
